import Mathlib

/-!
Verification of the s1500d event daemon core (protocol codec, transition
detector, gesture aggregator, orchestration loop) against its
natural-language specification.  All definitions are shallow embeddings of
the Rust source in `src/main.rs` and `src/config.rs`: bytes are `Nat`
(values below 256 where relevant), `Instant` timestamps and `Duration`s
are `Nat` milliseconds, and the orchestration loop is modelled as a step
function over an explicit daemon state driven by an environment oracle.
-/

namespace S1500d

-- ── Protocol codec (src/main.rs lines 72-99) ─────────────────────────

/-- Embedding of `envelope` (main.rs:72-77).  The Rust function writes the
CDB into a fixed `[0u8; 31]` buffer at offset 19; a CDB longer than 12
bytes would panic on the slice copy, which is modelled as `none`. -/
def envelope (cdb : List Nat) : Option (List Nat) :=
  if cdb.length ≤ 12 then
    some ((0x43 :: List.replicate 18 0) ++ cdb ++ List.replicate (12 - cdb.length) 0)
  else
    none

/-- Embedding of the `GHS_CDB` constant (main.rs:80). -/
def GHS_CDB : List Nat := [0xC2, 0, 0, 0, 0, 0, 0, 0, 0x0C, 0]

/-- Hardware snapshot (main.rs:86-89). -/
structure State where
  paper : Bool
  button : Bool
deriving DecidableEq, Repr

/-- Embedding of `State::from_response` (main.rs:92-98). -/
def State.from_response (buf : List Nat) : State :=
  { paper := (buf[3]?).any fun b => b &&& 0x80 == 0
    button := (buf[4]?).any fun b => b &&& 0x21 != 0 }

-- ── Events and transition detector (main.rs lines 102-135) ───────────

/-- The event tag set (main.rs:103-110). -/
inductive Event where
  | DeviceArrived
  | DeviceLeft
  | PaperIn
  | PaperOut
  | ButtonDown
  | ButtonUp
deriving DecidableEq, Repr, Fintype

/-- Embedding of `Event::tag` (main.rs:113-122). -/
def Event.tag : Event → String
  | .DeviceArrived => "device-arrived"
  | .DeviceLeft => "device-left"
  | .PaperIn => "paper-in"
  | .PaperOut => "paper-out"
  | .ButtonDown => "button-down"
  | .ButtonUp => "button-up"

/-- Embedding of `transitions` (main.rs:126-135): four optional events in
a fixed order, flattened. -/
def transitions (prev curr : State) : List Event :=
  [ if !prev.paper && curr.paper then some Event.PaperIn else none,
    if prev.paper && !curr.paper then some Event.PaperOut else none,
    if !prev.button && curr.button then some Event.ButtonDown else none,
    if prev.button && !curr.button then some Event.ButtonUp else none
  ].filterMap id

/-- An event is one of the paper events. -/
def Event.isPaper : Event → Bool
  | .PaperIn => true
  | .PaperOut => true
  | _ => false

/-- An event is one of the button events. -/
def Event.isButton : Event → Bool
  | .ButtonDown => true
  | .ButtonUp => true
  | _ => false

-- ── Gesture state machine and modes (main.rs 152-157, config.rs) ─────

/-- Embedding of `GestureState` (main.rs:153-157); `Instant` timestamps
become `Nat` milliseconds.  The press count is a `u32` in the source,
modelled as a `Nat` whose single arithmetic operation (the continuation
increment in `process_transitions`, main.rs:437) is taken modulo 2^32,
matching the wrapping semantics of a release build. -/
inductive GestureState where
  | Idle
  | Pressed (n : Nat)
  | Released (n : Nat) (since : Nat)
deriving DecidableEq, Repr

/-- The parts of `Config` (config.rs:26-31) the core consumes: the
handler path, the gesture timeout in milliseconds, and the press-count to
profile mapping (a `HashMap` in the source, modelled as an association
list queried with `List.lookup`). -/
structure Config where
  handler : String
  gesture_timeout_ms : Nat
  profiles : List (Nat × String)
deriving DecidableEq, Repr

/-- Embedding of `Mode` (main.rs:219-226). -/
inductive Mode where
  | LogOnly
  | Legacy (script : String)
  | ConfigMode (config : Config)
deriving DecidableEq, Repr

/-- Embedding of `Action` (main.rs:263-268). -/
inductive Action where
  | Continue
  | RunHandler (script : String) (args : List String)
deriving DecidableEq, Repr

/-- Embedding of `check_gesture_timeout` (main.rs:390-413).  `ts.elapsed()`
becomes `now - ts` (truncated subtraction, matching `Instant` never
observing a negative elapsed time). -/
def check_gesture_timeout (gesture : GestureState) (mode : Mode) (now : Nat) : Option Action :=
  match mode with
  | Mode.ConfigMode config =>
    match gesture with
    | GestureState.Released count ts =>
      if now - ts < config.gesture_timeout_ms then
        none
      else
        match config.profiles.lookup count with
        | some profile => some (Action.RunHandler config.handler ["scan", profile])
        | none => some Action.Continue
    | _ => none
  | _ => none

/-- The event loop of `process_transitions` (main.rs:426-468): fold the
event list over the gesture state, returning early with a dispatch action
in legacy mode or on a non-button event in config mode.  `Instant::now()`
in the `ButtonUp` arm becomes the `now` argument; the `u32` increment
`n + 1` of the continuation arm (main.rs:437) is taken modulo 2^32
(release-build wrapping semantics). -/
def processEvents (mode : Mode) (now : Nat) : List Event → GestureState → Action × GestureState
  | [], g => (Action.Continue, g)
  | ev :: rest, g =>
    match mode with
    | Mode.ConfigMode config =>
      match ev with
      | Event.ButtonDown =>
        processEvents mode now rest
          (match g with
           | GestureState.Idle => GestureState.Pressed 1
           | GestureState.Released n _ => GestureState.Pressed ((n + 1) % 4294967296)
           | GestureState.Pressed n => GestureState.Pressed n)
      | Event.ButtonUp =>
        processEvents mode now rest
          (match g with
           | GestureState.Pressed n => GestureState.Released n now
           | _ => GestureState.Idle)
      | _ => (Action.RunHandler config.handler [ev.tag], g)
    | Mode.Legacy script => (Action.RunHandler script [ev.tag], g)
    | Mode.LogOnly => processEvents mode now rest g

/-- Embedding of `process_transitions` (main.rs:420-470); the `&mut
GestureState` out-parameter becomes the second component of the result. -/
def process_transitions (prev curr : State) (mode : Mode) (g : GestureState) (now : Nat) :
    Action × GestureState :=
  processEvents mode now (transitions prev curr) g

/-- Number of handler dispatches an `Action` carries. -/
def Action.dispatches : Action → Nat
  | Action.Continue => 0
  | Action.RunHandler _ _ => 1

-- ── Orchestration loop model (main.rs `run`, lines 270-387) ──────────

/-- The mutable state of `run` (main.rs:272-274): device-presence flag,
baseline snapshot, and gesture state.  The USB handle itself carries no
data relevant to the claims; holding it corresponds to being inside the
inner `'poll` loop. -/
structure DaemonS where
  was_present : Bool
  prev : Option State
  gesture : GestureState
deriving DecidableEq, Repr

/-- Observable effects of the loop, in order of occurrence: lifecycle
logs, handler dispatches, a poll recorded as baseline only (the
`initial:` log at main.rs:338), and a diff of a freshly polled state
against a previous baseline (main.rs:343). -/
inductive Output where
  | log (e : Event)
  | dispatch (script : String) (args : List String)
  | baseline (s : State)
  | diffed (prevS currS : State)
deriving DecidableEq, Repr

/-- Environment responses consumed by one iteration of the inner `'poll`
loop: the clock reading, the reopen and fresh-poll results used after a
gesture-timeout dispatch (main.rs:312-315), the main `poll_status` result
(main.rs:330), and the reopen and fresh-poll results used after an
event dispatch (main.rs:356-359). -/
structure IterEnv where
  now : Nat
  gOpen : Bool
  gFresh : Option State
  pollRes : Option State
  dOpen : Bool
  dFresh : Option State
deriving DecidableEq, Repr

/-- Handler invocations performed by `emit_handler` (main.rs:473-479). -/
def emitOuts (mode : Mode) (e : Event) : List Output :=
  match mode with
  | Mode.LogOnly => []
  | Mode.Legacy script => [Output.dispatch script [e.tag]]
  | Mode.ConfigMode config => [Output.dispatch config.handler [e.tag]]

/-- The gesture-timeout phase at the top of each `'poll` iteration
(main.rs:302-328).  Returns the updated state, the outputs, and whether
control proceeds to the status poll (`false` models `break 'poll`). -/
def gesturePhase (mode : Mode) (env : IterEnv) (s : DaemonS) :
    DaemonS × List Output × Bool :=
  match check_gesture_timeout s.gesture mode env.now with
  | none => (s, [], true)
  | some Action.Continue => ({ s with gesture := GestureState.Idle }, [], true)
  | some (Action.RunHandler script args) =>
    if env.gOpen then
      match env.gFresh with
      | some fresh =>
        ({ s with gesture := GestureState.Idle, prev := some fresh },
         [Output.dispatch script args], true)
      | none =>
        ({ s with gesture := GestureState.Idle }, [Output.dispatch script args], false)
    else
      ({ s with gesture := GestureState.Idle }, [Output.dispatch script args], false)

/-- The poll-and-diff phase of a `'poll` iteration (main.rs:330-377):
poll status (exiting the loop on failure), record the first poll of a
session as baseline only, otherwise diff against the baseline, update the
gesture state, and on a dispatch release/run/reopen/re-seed
(main.rs:352-371).  The accumulated outputs of the preceding phase are
threaded through. -/
def pollPhase (mode : Mode) (env : IterEnv) (s : DaemonS) (outs : List Output) :
    DaemonS × List Output × Bool :=
  match env.pollRes with
  | none => (s, outs, false)
  | some state =>
    match s.prev with
    | none => ({ s with prev := some state }, outs ++ [Output.baseline state], true)
    | some p =>
      let r := process_transitions p state mode s.gesture env.now
      match r.1 with
      | Action.Continue =>
        ({ s with gesture := r.2, prev := some state },
         outs ++ [Output.diffed p state], true)
      | Action.RunHandler script args =>
        if env.dOpen then
          match env.dFresh with
          | some fresh =>
            ({ s with gesture := r.2, prev := some fresh },
             outs ++ [Output.diffed p state, Output.dispatch script args], true)
          | none =>
            ({ s with gesture := r.2 },
             outs ++ [Output.diffed p state, Output.dispatch script args], false)
        else
          ({ s with gesture := r.2 },
           outs ++ [Output.diffed p state, Output.dispatch script args], false)

/-- One full iteration of the inner `'poll` loop (main.rs:301-385). -/
def iterStep (mode : Mode) (env : IterEnv) (s : DaemonS) :
    DaemonS × List Output × Bool :=
  let ph := gesturePhase mode env s
  if ph.2.2 then pollPhase mode env ph.1 ph.2.1 else ph

/-- One attempt of the acquire loop (main.rs:278-298): on success, emit
`device-arrived` once per presence transition and enter the `'poll` loop;
on failure, emit `device-left` once and reset the baseline and gesture
state (main.rs:282-288).  The `Bool` result is whether the device was
acquired. -/
def acquireStep (mode : Mode) (openRes : Bool) (s : DaemonS) :
    DaemonS × List Output × Bool :=
  if openRes then
    if s.was_present then
      (s, [], true)
    else
      ({ s with was_present := true },
       Output.log Event.DeviceArrived :: emitOuts mode Event.DeviceArrived, true)
  else
    if s.was_present then
      ({ was_present := false, prev := none, gesture := GestureState.Idle },
       Output.log Event.DeviceLeft :: emitOuts mode Event.DeviceLeft, false)
    else
      (s, [], false)

/-- One environment interaction of the full `run` loop: either a
`try_open` outcome while in the acquire loop, or the responses for one
inner `'poll` iteration. -/
inductive EnvStep where
  | openA (res : Bool)
  | iter (env : IterEnv)
deriving DecidableEq, Repr

/-- The hardware states a step's environment can hand to the daemon. -/
def stepStates : EnvStep → List State
  | EnvStep.openA _ => []
  | EnvStep.iter env => env.gFresh.toList ++ env.pollRes.toList ++ env.dFresh.toList

/-- All hardware states observable from a trace of environment steps. -/
def pollStatesOf (steps : List EnvStep) : List State :=
  steps.flatMap stepStates

/-- Interpreter for `run` (main.rs:270-387) over a finite environment
trace.  The `inPoll` flag records whether control is inside the inner
`'poll` loop (holding the device handle); an environment step of the
wrong kind for the current control position is skipped. -/
def runSteps (mode : Mode) : List EnvStep → Bool → DaemonS → List Output × DaemonS × Bool
  | [], inPoll, s => ([], s, inPoll)
  | step :: rest, inPoll, s =>
    if inPoll then
      match step with
      | EnvStep.iter env =>
        let r := iterStep mode env s
        let k := runSteps mode rest r.2.2 r.1
        (r.2.1 ++ k.1, k.2)
      | EnvStep.openA _ => runSteps mode rest inPoll s
    else
      match step with
      | EnvStep.openA res =>
        let r := acquireStep mode res s
        let k := runSteps mode rest r.2.2 r.1
        (r.2.1 ++ k.1, k.2)
      | EnvStep.iter _ => runSteps mode rest inPoll s

/-- The initial daemon state (main.rs:272-274). -/
def initDaemon : DaemonS :=
  { was_present := false, prev := none, gesture := GestureState.Idle }

/-- A concrete configuration matching `test_config` in the source's test
suite (main.rs:747-754). -/
def sampleConfig : Config :=
  { handler := "/bin/test-handler.sh"
    gesture_timeout_ms := 400
    profiles := [(1, "standard"), (2, "legal")] }

/-- A concrete environment trace: acquire the device, observe paper
present, suffer a status-query failure, reacquire successfully on the
first open attempt, then observe paper absent. -/
def staleTrace : List EnvStep :=
  [ EnvStep.openA true,
    EnvStep.iter ⟨0, false, none, some ⟨true, false⟩, false, none⟩,
    EnvStep.iter ⟨1, false, none, none, false, none⟩,
    EnvStep.openA true,
    EnvStep.iter ⟨2, false, none, some ⟨false, false⟩, false, none⟩ ]

-- ── Claim C3 ─────────────────────────────────────────────────────────

/-- Claim C3, counterexample: the claim describes the status-query
descriptor as opcode 0xC2 followed by five zero bytes, then 0x0C, then
one trailing zero, while also claiming 10 bytes total.  The actual
`GHS_CDB` has seven zero bytes between the opcode and the allocation
length (0x0C sits at index 8, not index 6), so the claimed layout is
false of the code. -/
theorem c3_counterexample :
    ¬ (GHS_CDB = [0xC2] ++ List.replicate 5 0 ++ [0x0C, 0] ∧ GHS_CDB.length = 10) := by
  decide

/-- Claim C3, amended: the status-query command descriptor is exactly 10
bytes laid out as opcode 0xC2, followed by seven zero bytes, then the
allocation length byte 0x0C, then one trailing zero byte. -/
theorem c3_status_descriptor_layout :
    GHS_CDB.length = 10 ∧ GHS_CDB = [0xC2] ++ List.replicate 7 0 ++ [0x0C, 0] := by
  decide

-- ── Claim C7 ─────────────────────────────────────────────────────────

/-- Claim C7: for every pair of states, the transition diff (a pure
function, hence deterministic) emits zero, one, or two events, each event
tag at most once, with all paper events preceding all button events;
identical states yield the empty sequence, and the simultaneous
paper-in/button-down flip yields exactly `[PaperIn, ButtonDown]`. -/
theorem c7_diff_shape :
    (∀ p b q c : Bool,
      (transitions ⟨p, b⟩ ⟨q, c⟩).length ≤ 2 ∧
      (∀ e : Event, (transitions ⟨p, b⟩ ⟨q, c⟩).count e ≤ 1) ∧
      transitions ⟨p, b⟩ ⟨q, c⟩ =
        (transitions ⟨p, b⟩ ⟨q, c⟩).filter Event.isPaper ++
        (transitions ⟨p, b⟩ ⟨q, c⟩).filter Event.isButton) ∧
    (∀ p b : Bool, transitions ⟨p, b⟩ ⟨p, b⟩ = []) ∧
    transitions ⟨false, false⟩ ⟨true, true⟩ = [Event.PaperIn, Event.ButtonDown] := by
  decide

-- ── Claim C4 ─────────────────────────────────────────────────────────

/-- Claim C4: for every byte buffer, `State::from_response` reports paper
present iff byte 3 exists with its 0x80 bit clear, and button held iff
byte 4 exists with at least one of the 0x20 / 0x01 bits set; a missing
byte yields `false` for the corresponding field, and all other bits are
ignored (byte 4 = 0xDE decodes to no button). -/
theorem c4_decode_status :
    (∀ buf : List Nat, (∀ b ∈ buf, b < 256) →
      ((State.from_response buf).paper = true ↔
        ∃ b, buf[3]? = some b ∧ b &&& 0x80 = 0) ∧
      ((State.from_response buf).button = true ↔
        ∃ b, buf[4]? = some b ∧ (b &&& 0x20 ≠ 0 ∨ b &&& 0x01 ≠ 0))) ∧
    State.from_response [] = { paper := false, button := false } ∧
    State.from_response [0, 0] = { paper := false, button := false } ∧
    State.from_response [0, 0, 0, 0x80, 0xDE] = { paper := false, button := false } := by
  refine ⟨?_, by decide, by decide, by decide⟩
  intro buf hb
  have hmask : ∀ x : Nat, x < 256 →
      ((x &&& 33 ≠ 0) ↔ (x &&& 32 ≠ 0 ∨ x &&& 1 ≠ 0)) := by
    set_option maxRecDepth 4096 in decide
  constructor
  · cases h3 : buf[3]? with
    | none => simp [State.from_response, h3, Option.any]
    | some b => simp [State.from_response, h3, Option.any]
  · cases h4 : buf[4]? with
    | none => simp [State.from_response, h4, Option.any]
    | some b =>
      have hb4 : b < 256 := hb b (List.getElem?_mem h4)
      simpa [State.from_response, h4, Option.any] using hmask b hb4

/-- Claim C4, witness: the general decode characterisation applied to the
concrete buffer `[0, 0, 0, 0, 0x21]`. -/
theorem c4_decode_status_witness :
    ((State.from_response [0, 0, 0, 0, 0x21]).paper = true ↔
      ∃ b, [0, 0, 0, 0, 0x21][3]? = some b ∧ b &&& 0x80 = 0) ∧
    ((State.from_response [0, 0, 0, 0, 0x21]).button = true ↔
      ∃ b, [0, 0, 0, 0, 0x21][4]? = some b ∧ (b &&& 0x20 ≠ 0 ∨ b &&& 0x01 ≠ 0)) :=
  c4_decode_status.1 [0, 0, 0, 0, 0x21] (by decide)

-- ── Claim C6 ─────────────────────────────────────────────────────────

/-- Claim C6: for every descriptor of length at most 12, the envelope
builder succeeds (no panic) and yields exactly 31 bytes with byte 0 =
0x43, bytes 1..19 zero, bytes 19..19+len equal to the descriptor, and
all remaining bytes zero. -/
theorem c6_envelope_layout (cdb : List Nat) (h : cdb.length ≤ 12) :
    ∃ out, envelope cdb = some out ∧
      out.length = 31 ∧
      out[0]? = some 0x43 ∧
      (∀ i, 1 ≤ i → i < 19 → out[i]? = some 0) ∧
      (∀ i, i < cdb.length → out[19 + i]? = cdb[i]?) ∧
      (∀ i, 19 + cdb.length ≤ i → i < 31 → out[i]? = some 0) := by
  refine ⟨(0x43 :: List.replicate 18 0) ++ cdb ++ List.replicate (12 - cdb.length) 0,
    by rw [envelope, if_pos h], ?_, ?_, ?_, ?_, ?_⟩
  · simp only [List.length_append, List.length_cons, List.length_replicate]
    omega
  · rfl
  · intro i h1 h19
    obtain ⟨j, rfl⟩ : ∃ j, i = j + 1 := ⟨i - 1, by omega⟩
    rw [List.getElem?_append_left (by simp [List.length_append]; omega),
      List.getElem?_append_left (by simp; omega), List.getElem?_cons_succ,
      List.getElem?_replicate, if_pos (by omega)]
  · intro i hi
    rw [List.getElem?_append_left (by simp [List.length_append]; omega),
      List.getElem?_append_right (by simp)]
    congr 1
    simp
  · intro i hlo hhi
    rw [List.getElem?_append_right (by simp [List.length_append]; omega),
      List.getElem?_replicate, if_pos (by simp [List.length_append]; omega)]

/-- Claim C6, witness: the envelope layout theorem applied to the
status-query descriptor itself. -/
theorem c6_envelope_layout_witness :
    GHS_CDB.length ≤ 12 ∧
    ∃ out, envelope GHS_CDB = some out ∧
      out.length = 31 ∧
      out[0]? = some 0x43 ∧
      (∀ i, 1 ≤ i → i < 19 → out[i]? = some 0) ∧
      (∀ i, i < GHS_CDB.length → out[19 + i]? = GHS_CDB[i]?) ∧
      (∀ i, 19 + GHS_CDB.length ≤ i → i < 31 → out[i]? = some 0) :=
  ⟨by decide, c6_envelope_layout GHS_CDB (by decide)⟩

-- ── Claim C8 ─────────────────────────────────────────────────────────

/-- Claim C8: once the gesture timeout has elapsed for a pending press
run of count `n`, finalization yields a dispatch with arguments
`("scan", label)` iff the profile map sends `n` to `label`, and yields
the no-op action (not an error) whenever `n` is unmapped. -/
theorem c8_finalize_lookup (c : Config) (n since now : Nat)
    (h : c.gesture_timeout_ms ≤ now - since) :
    (∀ label,
      check_gesture_timeout (GestureState.Released n since) (Mode.ConfigMode c) now =
        some (Action.RunHandler c.handler ["scan", label]) ↔
      c.profiles.lookup n = some label) ∧
    (c.profiles.lookup n = none →
      check_gesture_timeout (GestureState.Released n since) (Mode.ConfigMode c) now =
        some Action.Continue) := by
  have hlt : ¬ now - since < c.gesture_timeout_ms := by omega
  constructor
  · intro label
    cases hl : c.profiles.lookup n with
    | none => simp [check_gesture_timeout, hlt, hl]
    | some profile => simp [check_gesture_timeout, hlt, hl]
  · intro hl
    simp [check_gesture_timeout, hlt, hl]

/-- Claim C8, witness: finalization of a double press under
`sampleConfig` dispatches the mapped label, and a five-press run (not in
the map) is a no-op. -/
theorem c8_finalize_lookup_witness :
    (check_gesture_timeout (GestureState.Released 2 0) (Mode.ConfigMode sampleConfig) 400 =
      some (Action.RunHandler sampleConfig.handler ["scan", "legal"]) ↔
      sampleConfig.profiles.lookup 2 = some "legal") ∧
    (sampleConfig.profiles.lookup 5 = none →
      check_gesture_timeout (GestureState.Released 5 0) (Mode.ConfigMode sampleConfig) 400 =
        some Action.Continue) :=
  ⟨(c8_finalize_lookup sampleConfig 2 0 400 (by decide)).1 "legal",
   (c8_finalize_lookup sampleConfig 5 0 400 (by decide)).2⟩

-- ── Claim C5 ─────────────────────────────────────────────────────────

/-- Claim C5, counterexample: the claimed continuation transition
`Released(n, _) + ButtonDown → Pressed(n+1)` fails at `n = u32::MAX =
4294967295`: the source increments a `u32` (main.rs:437), which wraps to
`Pressed(0)` in a release build instead of reaching `Pressed(n+1)`. -/
theorem c5_counterexample :
    (process_transitions ⟨false, false⟩ ⟨false, true⟩ (Mode.ConfigMode sampleConfig)
        (GestureState.Released 4294967295 0) 5).2 = GestureState.Pressed 0 ∧
    GestureState.Pressed 0 ≠ GestureState.Pressed (4294967295 + 1) := by
  decide

/-- Claim C5, amended: the gesture aggregator realises the specified
transition table, with the continuation increment taken modulo 2^32 (the
press count is a `u32`); for every `n` with `n + 1 < 2^32` the
continuation reaches `Pressed(n+1)` exactly as claimed.  The four button
transitions are stated through `process_transitions` on the canonical
single-event diffs (button flip with paper unchanged), and timeout
finalization is stated through `check_gesture_timeout` together with the
reset to `Idle` performed by the gesture phase of the poll loop
(main.rs:305). -/
theorem c5_gesture_table (c : Config) (n since now : Nat) :
    (process_transitions ⟨false, false⟩ ⟨false, true⟩ (Mode.ConfigMode c)
        GestureState.Idle now = (Action.Continue, GestureState.Pressed 1)) ∧
    (process_transitions ⟨false, false⟩ ⟨false, true⟩ (Mode.ConfigMode c)
        (GestureState.Pressed n) now = (Action.Continue, GestureState.Pressed n)) ∧
    (process_transitions ⟨false, true⟩ ⟨false, false⟩ (Mode.ConfigMode c)
        (GestureState.Pressed n) now = (Action.Continue, GestureState.Released n now)) ∧
    (process_transitions ⟨false, false⟩ ⟨false, true⟩ (Mode.ConfigMode c)
        (GestureState.Released n since) now =
        (Action.Continue, GestureState.Pressed ((n + 1) % 4294967296))) ∧
    (n + 1 < 4294967296 →
      process_transitions ⟨false, false⟩ ⟨false, true⟩ (Mode.ConfigMode c)
        (GestureState.Released n since) now =
        (Action.Continue, GestureState.Pressed (n + 1))) ∧
    (c.gesture_timeout_ms ≤ now - since →
      (check_gesture_timeout (GestureState.Released n since) (Mode.ConfigMode c) now).isSome =
        true ∧
      ∀ env s, env.now = now → s.gesture = GestureState.Released n since →
        ((gesturePhase (Mode.ConfigMode c) env s).1).gesture = GestureState.Idle) := by
  refine ⟨rfl, rfl, rfl, rfl, fun hn => ?_, fun h => ⟨?_, ?_⟩⟩
  · have hm : (n + 1) % 4294967296 = n + 1 := Nat.mod_eq_of_lt hn
    rw [← hm]
    rfl
  · have hlt : ¬ now - since < c.gesture_timeout_ms := by omega
    cases hl : c.profiles.lookup n with
    | none => simp [check_gesture_timeout, hlt, hl]
    | some profile => simp [check_gesture_timeout, hlt, hl]
  · intro env s hnow hg
    have hlt : ¬ now - since < c.gesture_timeout_ms := by omega
    cases hl : c.profiles.lookup n with
    | none => simp [gesturePhase, check_gesture_timeout, hg, hnow, hlt, hl]
    | some profile =>
      cases hgo : env.gOpen with
      | false => simp [gesturePhase, check_gesture_timeout, hg, hnow, hlt, hl, hgo]
      | true =>
        cases hgf : env.gFresh with
        | none => simp [gesturePhase, check_gesture_timeout, hg, hnow, hlt, hl, hgo, hgf]
        | some fresh => simp [gesturePhase, check_gesture_timeout, hg, hnow, hlt, hl, hgo, hgf]

/-- Claim C5, witness: the non-wrapping continuation and the
timeout-finalization parts of the transition table with their hypotheses
discharged for `sampleConfig` at count 2. -/
theorem c5_gesture_table_witness :
    (process_transitions ⟨false, false⟩ ⟨false, true⟩ (Mode.ConfigMode sampleConfig)
        (GestureState.Released 2 0) 400 =
        (Action.Continue, GestureState.Pressed 3)) ∧
    (check_gesture_timeout (GestureState.Released 2 0) (Mode.ConfigMode sampleConfig) 400).isSome =
      true ∧
    ∀ env s, env.now = 400 → s.gesture = GestureState.Released 2 0 →
      ((gesturePhase (Mode.ConfigMode sampleConfig) env s).1).gesture = GestureState.Idle :=
  ⟨(c5_gesture_table sampleConfig 2 0 400).2.2.2.2.1 (by decide),
   (c5_gesture_table sampleConfig 2 0 400).2.2.2.2.2 (by decide)⟩

-- ── Claim C9 ─────────────────────────────────────────────────────────

/-- Claim C9: processing one poll's transitions yields a single action
carrying at most one dispatch, in every mode; in legacy mode that action
dispatches the tag of the first event of the fixed order (`Continue` when
there is none), and every event after the first is dropped: the result of
processing `ev :: rest` does not depend on `rest`. -/
theorem c9_single_dispatch (prev curr : State) (mode : Mode) (g : GestureState) (now : Nat) :
    (process_transitions prev curr mode g now).1.dispatches ≤ 1 ∧
    (∀ script, (process_transitions prev curr (Mode.Legacy script) g now).1 =
      match (transitions prev curr).head? with
      | none => Action.Continue
      | some ev => Action.RunHandler script [ev.tag]) ∧
    (∀ script ev rest g2, processEvents (Mode.Legacy script) now (ev :: rest) g2 =
      (Action.RunHandler script [ev.tag], g2)) := by
  refine ⟨?_, ?_, fun script ev rest g2 => rfl⟩
  · cases h : (process_transitions prev curr mode g now).1 with
    | Continue => simp [Action.dispatches]
    | RunHandler script args => simp [Action.dispatches]
  · intro script
    obtain ⟨p, b⟩ := prev
    obtain ⟨q, d⟩ := curr
    cases p <;> cases b <;> cases q <;> cases d <;> rfl

-- ── Claim C10 ────────────────────────────────────────────────────────

/-- Claim C10: in config mode, any poll whose diff flips the paper state
returns the paper-event dispatch and leaves the gesture state untouched,
whatever the button bits do in the same poll — the same-poll button
events come after the paper event in the fixed order and are never
applied to the aggregator.  In particular the `{paper:false,button:false}
→ {paper:true,button:true}` poll dispatches `paper-in` with the gesture
state unchanged. -/
theorem c10_paper_preempts_buttons (c : Config) (g : GestureState) (now : Nat) :
    (∀ p b d : Bool,
      process_transitions ⟨p, b⟩ ⟨!p, d⟩ (Mode.ConfigMode c) g now =
        (Action.RunHandler c.handler
          [if p then Event.PaperOut.tag else Event.PaperIn.tag], g)) ∧
    process_transitions ⟨false, false⟩ ⟨true, true⟩ (Mode.ConfigMode c) g now =
      (Action.RunHandler c.handler ["paper-in"], g) := by
  refine ⟨fun p b d => ?_, rfl⟩
  cases p <;> cases b <;> cases d <;> rfl

-- ── Claim C2 ─────────────────────────────────────────────────────────

/-- Claim C2, counterexample: in config mode a `ButtonUp` reaching the
aggregator while it is `Released(2, 5)` does not leave the state
unchanged — the `_ => GestureState::Idle` arm of the `ButtonUp` match
(main.rs:450) resets it to `Idle`, discarding the pending run, even
though the gesture timeout (400 ms under `sampleConfig`, 1 ms elapsed
here) has not elapsed. -/
theorem c2_counterexample :
    6 - 5 < sampleConfig.gesture_timeout_ms ∧
    (process_transitions ⟨false, true⟩ ⟨false, false⟩ (Mode.ConfigMode sampleConfig)
        (GestureState.Released 2 5) 6).2 = GestureState.Idle ∧
    GestureState.Idle ≠ GestureState.Released 2 5 := by
  decide

/-- Claim C2, amended: in config mode, a poll whose diff contains no
button-state change leaves a pending `Released(n, since)` untouched
(paper events never reach the aggregator), but a `ButtonUp` processed
while the aggregator is `Released` resets it to `Idle`, discarding the
pending run. -/
theorem c2_released_ignores_non_down (c : Config) (n since now : Nat) :
    (∀ p q b : Bool,
      (process_transitions ⟨p, b⟩ ⟨q, b⟩ (Mode.ConfigMode c)
          (GestureState.Released n since) now).2 = GestureState.Released n since) ∧
    (∀ p : Bool,
      (process_transitions ⟨p, true⟩ ⟨p, false⟩ (Mode.ConfigMode c)
          (GestureState.Released n since) now).2 = GestureState.Idle) := by
  refine ⟨fun p q b => ?_, fun p => ?_⟩
  · cases p <;> cases q <;> cases b <;> rfl
  · cases p <;> rfl

-- ── Claim C1: helper lemmas about the loop phases ────────────────────

/-- An idle gesture never triggers the timeout check. -/
theorem check_gesture_timeout_idle (mode : Mode) (now : Nat) :
    check_gesture_timeout GestureState.Idle mode now = none := by
  cases mode <;> rfl

/-- The gesture phase emits no diff outputs. -/
theorem gesturePhase_no_diffed (mode : Mode) (env : IterEnv) (s : DaemonS) (p q : State) :
    Output.diffed p q ∉ (gesturePhase mode env s).2.1 := by
  cases hc : check_gesture_timeout s.gesture mode env.now with
  | none => simp [gesturePhase, hc]
  | some a =>
    cases a with
    | Continue => simp [gesturePhase, hc]
    | RunHandler sc ar =>
      cases hgo : env.gOpen with
      | false => simp [gesturePhase, hc, hgo]
      | true => cases hgf : env.gFresh <;> simp [gesturePhase, hc, hgo, hgf]

/-- Any baseline the gesture phase installs is the entry baseline or the
fresh post-dispatch poll. -/
theorem gesturePhase_prev (mode : Mode) (env : IterEnv) (s : DaemonS) (q : State) :
    (gesturePhase mode env s).1.prev = some q → s.prev = some q ∨ env.gFresh = some q := by
  intro h
  cases hc : check_gesture_timeout s.gesture mode env.now with
  | none =>
    simp [gesturePhase, hc] at h
    exact Or.inl h
  | some a =>
    cases a with
    | Continue =>
      simp [gesturePhase, hc] at h
      exact Or.inl h
    | RunHandler sc ar =>
      cases hgo : env.gOpen with
      | false =>
        simp [gesturePhase, hc, hgo] at h
        exact Or.inl h
      | true =>
        cases hgf : env.gFresh with
        | none =>
          simp [gesturePhase, hc, hgo, hgf] at h
          exact Or.inl h
        | some fresh =>
          simp [gesturePhase, hc, hgo, hgf] at h
          right
          simp_all

/-- Every diff output of the poll phase was either already accumulated or
diffed against the phase's entry baseline. -/
theorem pollPhase_diffed (mode : Mode) (env : IterEnv) (s : DaemonS) (outs : List Output)
    (p q : State) :
    Output.diffed p q ∈ (pollPhase mode env s outs).2.1 →
    Output.diffed p q ∈ outs ∨ s.prev = some p := by
  intro h
  cases hpr : env.pollRes with
  | none =>
    simp [pollPhase, hpr] at h
    exact Or.inl h
  | some st =>
    cases hprev : s.prev with
    | none =>
      simp [pollPhase, hpr, hprev] at h
      exact Or.inl h
    | some pp =>
      cases hact : (process_transitions pp st mode s.gesture env.now).1 with
      | Continue =>
        simp [pollPhase, hpr, hprev, hact] at h
        rcases h with h | ⟨h1, h2⟩
        · exact Or.inl h
        · right
          simp_all
      | RunHandler sc ar =>
        cases hdo : env.dOpen with
        | false =>
          simp [pollPhase, hpr, hprev, hact, hdo] at h
          rcases h with h | ⟨h1, h2⟩
          · exact Or.inl h
          · right
            simp_all
        | true =>
          cases hdf : env.dFresh with
          | none =>
            simp [pollPhase, hpr, hprev, hact, hdo, hdf] at h
            rcases h with h | ⟨h1, h2⟩
            · exact Or.inl h
            · right
              simp_all
          | some fresh =>
            simp [pollPhase, hpr, hprev, hact, hdo, hdf] at h
            rcases h with h | ⟨h1, h2⟩
            · exact Or.inl h
            · right
              simp_all

/-- Any baseline left by the poll phase is the entry baseline, the main
poll result, or the fresh post-dispatch poll. -/
theorem pollPhase_prev (mode : Mode) (env : IterEnv) (s : DaemonS) (outs : List Output)
    (q : State) :
    (pollPhase mode env s outs).1.prev = some q →
    s.prev = some q ∨ env.pollRes = some q ∨ env.dFresh = some q := by
  intro h
  cases hpr : env.pollRes with
  | none =>
    simp [pollPhase, hpr] at h
    exact Or.inl h
  | some st =>
    cases hprev : s.prev with
    | none =>
      simp [pollPhase, hpr, hprev] at h
      right
      left
      simp_all
    | some pp =>
      cases hact : (process_transitions pp st mode s.gesture env.now).1 with
      | Continue =>
        simp [pollPhase, hpr, hprev, hact] at h
        right
        left
        simp_all
      | RunHandler sc ar =>
        cases hdo : env.dOpen with
        | false =>
          simp [pollPhase, hpr, hprev, hact, hdo] at h
          left
          simp_all
        | true =>
          cases hdf : env.dFresh with
          | none =>
            simp [pollPhase, hpr, hprev, hact, hdo, hdf] at h
            left
            simp_all
          | some fresh =>
            simp [pollPhase, hpr, hprev, hact, hdo, hdf] at h
            right
            right
            simp_all

/-- Every diff output of one poll iteration is against the iteration's
entry baseline or the fresh post-dispatch poll. -/
theorem iterStep_diffed (mode : Mode) (env : IterEnv) (s : DaemonS) (p q : State) :
    Output.diffed p q ∈ (iterStep mode env s).2.1 →
    s.prev = some p ∨ env.gFresh = some p := by
  intro h
  cases hb : (gesturePhase mode env s).2.2 with
  | false =>
    simp [iterStep, hb] at h
    exact absurd h (gesturePhase_no_diffed mode env s p q)
  | true =>
    simp [iterStep, hb] at h
    rcases pollPhase_diffed mode env _ _ p q h with h1 | h2
    · exact absurd h1 (gesturePhase_no_diffed mode env s p q)
    · exact gesturePhase_prev mode env s p h2

/-- Any baseline left by one poll iteration is the entry baseline or one
of the states the environment handed over during the iteration. -/
theorem iterStep_prev (mode : Mode) (env : IterEnv) (s : DaemonS) (q : State) :
    (iterStep mode env s).1.prev = some q →
    s.prev = some q ∨ q ∈ stepStates (EnvStep.iter env) := by
  intro h
  cases hb : (gesturePhase mode env s).2.2 with
  | false =>
    simp [iterStep, hb] at h
    rcases gesturePhase_prev mode env s q h with h1 | h2
    · exact Or.inl h1
    · refine Or.inr ?_
      simp [stepStates]
      exact Or.inl h2
  | true =>
    simp [iterStep, hb] at h
    rcases pollPhase_prev mode env _ _ q h with h1 | h2 | h3
    · rcases gesturePhase_prev mode env s q h1 with ha | hg
      · exact Or.inl ha
      · refine Or.inr ?_
        simp [stepStates]
        exact Or.inl hg
    · refine Or.inr ?_
      simp [stepStates]
      exact Or.inr (Or.inl h2)
    · refine Or.inr ?_
      simp [stepStates]
      exact Or.inr (Or.inr h3)

/-- The acquire loop emits no diff outputs. -/
theorem acquireStep_no_diffed (mode : Mode) (r : Bool) (s : DaemonS) (p q : State) :
    Output.diffed p q ∉ (acquireStep mode r s).2.1 := by
  cases r <;> cases hw : s.was_present <;> cases mode <;> simp [acquireStep, hw, emitOuts]

/-- The acquire loop never installs a baseline. -/
theorem acquireStep_prev (mode : Mode) (r : Bool) (s : DaemonS) (q : State) :
    (acquireStep mode r s).1.prev = some q → s.prev = some q := by
  cases r <;> cases hw : s.was_present <;> simp [acquireStep, hw]

/-- Over any environment trace, every diff output is against the entry
baseline or a state the environment handed over during the trace. -/
theorem runSteps_diffed (mode : Mode) (steps : List EnvStep) :
    ∀ (inPoll : Bool) (s : DaemonS) (p q : State),
      Output.diffed p q ∈ (runSteps mode steps inPoll s).1 →
      s.prev = some p ∨ p ∈ pollStatesOf steps := by
  induction steps with
  | nil =>
    intro inPoll s p q h
    simp [runSteps] at h
  | cons step rest ih =>
    intro inPoll s p q h
    have hcons : pollStatesOf (step :: rest) = stepStates step ++ pollStatesOf rest := by
      simp [pollStatesOf]
    cases inPoll with
    | true =>
      cases step with
      | iter env =>
        simp only [runSteps, if_true, List.mem_append] at h
        rcases h with h | h
        · rcases iterStep_diffed mode env s p q h with h1 | h2
          · exact Or.inl h1
          · refine Or.inr ?_
            rw [hcons]
            refine List.mem_append_left _ ?_
            simp [stepStates, h2]
        · rcases ih _ _ p q h with h1 | h2
          · rcases iterStep_prev mode env s p h1 with ha | hb
            · exact Or.inl ha
            · refine Or.inr ?_
              rw [hcons]
              exact List.mem_append_left _ hb
          · refine Or.inr ?_
            rw [hcons]
            exact List.mem_append_right _ h2
      | openA r =>
        simp only [runSteps, if_true] at h
        rcases ih _ _ p q h with h1 | h2
        · exact Or.inl h1
        · refine Or.inr ?_
          rw [hcons]
          exact List.mem_append_right _ h2
    | false =>
      cases step with
      | openA r =>
        simp only [runSteps, Bool.false_eq_true, if_false, List.mem_append] at h
        rcases h with h | h
        · exact absurd h (acquireStep_no_diffed mode r s p q)
        · rcases ih _ _ p q h with h1 | h2
          · exact Or.inl (acquireStep_prev mode r s p h1)
          · refine Or.inr ?_
            rw [hcons]
            exact List.mem_append_right _ h2
      | iter env =>
        simp only [runSteps, Bool.false_eq_true, if_false] at h
        rcases ih _ _ p q h with h1 | h2
        · exact Or.inl h1
        · refine Or.inr ?_
          rw [hcons]
          exact List.mem_append_right _ h2

-- ── Claim C1 ─────────────────────────────────────────────────────────

/-- Claim C1, counterexample: a status-query failure mid-session followed
by a reacquisition that succeeds on the first open attempt does NOT
re-baseline.  On the trace `staleTrace` (acquire, poll paper-present,
query failure, successful reopen, poll paper-absent) the poll after the
reacquisition is diffed against the pre-loss state `{paper:true}`
(emitting a phantom `PaperOut`) instead of being recorded as a baseline:
the baseline reset at main.rs:286 runs only when an open attempt fails,
which this interleaving never does. -/
theorem c1_counterexample :
    (runSteps Mode.LogOnly staleTrace false initDaemon).1 =
      [Output.log Event.DeviceArrived, Output.baseline ⟨true, false⟩,
       Output.diffed ⟨true, false⟩ ⟨false, false⟩] ∧
    Output.diffed ⟨true, false⟩ ⟨false, false⟩ ∈
      (runSteps Mode.LogOnly staleTrace false initDaemon).1 ∧
    transitions ⟨true, false⟩ ⟨false, false⟩ = [Event.PaperOut] := by
  decide

/-- Claim C1, amended: re-baselining is guaranteed only when the device
loss is observed by a failed open attempt.  (a) A failed open attempt
while the device was present clears the baseline and gesture state;
(b) from a cleared baseline with an idle gesture, an iteration records a
successful poll as baseline only (no diff, no other output) and installs
it as the new baseline; (c) over any environment trace started with a
cleared baseline, every diff is against a state the environment handed
over within that trace — never the stale pre-loss state.  (Without an
observed failed open attempt, as in `staleTrace`, the stale baseline is
kept and diffed against.) -/
theorem c1_rebaseline_after_observed_loss :
    (∀ (mode : Mode) (s : DaemonS), s.was_present = true →
      (acquireStep mode false s).1.prev = none ∧
      (acquireStep mode false s).1.gesture = GestureState.Idle) ∧
    (∀ (mode : Mode) (env : IterEnv) (s : DaemonS),
      s.prev = none → s.gesture = GestureState.Idle →
      (iterStep mode env s).2.1 = (env.pollRes.map Output.baseline).toList ∧
      (iterStep mode env s).1.prev = env.pollRes) ∧
    (∀ (mode : Mode) (steps : List EnvStep) (inPoll : Bool) (s : DaemonS) (p q : State),
      s.prev = none →
      Output.diffed p q ∈ (runSteps mode steps inPoll s).1 →
      p ∈ pollStatesOf steps) := by
  refine ⟨?_, ?_, ?_⟩
  · intro mode s hw
    constructor <;> simp [acquireStep, hw]
  · intro mode env s h0 hg
    have hc : check_gesture_timeout s.gesture mode env.now = none := by
      rw [hg]
      exact check_gesture_timeout_idle mode env.now
    cases hpr : env.pollRes with
    | none => constructor <;> simp [iterStep, gesturePhase, pollPhase, hc, hpr, h0]
    | some st => constructor <;> simp [iterStep, gesturePhase, pollPhase, hc, hpr, h0]
  · intro mode steps inPoll s p q h0 h
    rcases runSteps_diffed mode steps inPoll s p q h with h1 | h2
    · rw [h0] at h1
      exact absurd h1 (by simp)
    · exact h2

/-- Claim C1, witness: the amended guarantees at concrete inputs — an
observed loss clears the state; a fresh session's first poll is baseline
only; and the diff produced on `staleTrace` is against a state the
environment handed over within the trace. -/
theorem c1_rebaseline_after_observed_loss_witness :
    ((acquireStep Mode.LogOnly false
        ⟨true, some ⟨true, true⟩, GestureState.Pressed 3⟩).1.prev = none ∧
     (acquireStep Mode.LogOnly false
        ⟨true, some ⟨true, true⟩, GestureState.Pressed 3⟩).1.gesture = GestureState.Idle) ∧
    ((iterStep Mode.LogOnly ⟨0, false, none, some ⟨true, false⟩, false, none⟩
        initDaemon).2.1 = ((some (⟨true, false⟩ : State)).map Output.baseline).toList ∧
     (iterStep Mode.LogOnly ⟨0, false, none, some ⟨true, false⟩, false, none⟩
        initDaemon).1.prev = some ⟨true, false⟩) ∧
    (⟨true, false⟩ : State) ∈ pollStatesOf staleTrace :=
  ⟨c1_rebaseline_after_observed_loss.1 Mode.LogOnly
      ⟨true, some ⟨true, true⟩, GestureState.Pressed 3⟩ rfl,
   c1_rebaseline_after_observed_loss.2.1 Mode.LogOnly
      ⟨0, false, none, some ⟨true, false⟩, false, none⟩ initDaemon rfl rfl,
   c1_rebaseline_after_observed_loss.2.2 Mode.LogOnly staleTrace false initDaemon
      ⟨true, false⟩ ⟨false, false⟩ rfl (by decide)⟩

end S1500d
